import Mathlib

/-
Shallow embedding of the sampled sources of the rspamd symbol cache:
  src/libserver/symcache/symcache_item.hxx  (cache_item and its specific data)
  src/lua/lua_session.c                     (lua bindings for async sessions)
C++ member functions that mutate `*this` become Lean functions returning the
updated value; machine integers become Int/Nat (counters never approach their
word size in any property below, so wraparound is not modelled); the lua stack
is modelled as the list of values a binding pushes plus the number of values it
returns.  Types whose definitions are outside the sampled sources
(`id_list`, `struct rspamd_symcache_item_stat`, `rspamd_async_session`) are
modelled from the spec and say so in their doc comments.
-/

set_option autoImplicit false

namespace rspamd

/-- The item type enum from symcache_item.hxx. -/
inductive symcache_item_type where
  | CONNFILTER
  | PREFILTER
  | FILTER
  | POSTFILTER
  | IDEMPOTENT
  | CLASSIFIER
  | COMPOSITE
  | VIRTUAL
deriving DecidableEq, Repr

/-- One execution condition: `item_condition` stores a lua state pointer and a
registry reference to the predicate closure (the lua state is opaque here and
kept as a number). -/
structure item_condition where
  L : Nat
  cb : Int
deriving DecidableEq, Repr

/-- Callback data of a non-virtual symbol: `normal_item` from
symcache_item.hxx, with the function pointer and user data kept opaque. -/
structure normal_item where
  func : Nat
  user_data : Nat
  conditions : List item_condition
deriving DecidableEq, Repr

/-- normal_item::add_condition — emplace_back of a new condition. -/
def normal_item.add_condition (n : normal_item) (L : Nat) (cbref : Int) : normal_item :=
  { n with conditions := n.conditions ++ [⟨L, cbref⟩] }

/-- normal_item::call — the body in the source is an empty stub (a TODO), so
the call leaves the item exactly as it was. -/
def normal_item.call (n : normal_item) : normal_item :=
  n

/-- Virtual data of a symbol: `virtual_item` from symcache_item.hxx.  The
cached parent pointer is modelled as the parent item id once resolved. -/
structure virtual_item where
  parent_id : Int
  parent : Option Int
deriving DecidableEq, Repr

/-- The virtual_item constructor: stores the parent id, the cached parent
pointer starts null. -/
def virtual_item.create (pid : Int) : virtual_item :=
  ⟨pid, none⟩

/-- Modelled from the spec: `symcache_id_list.hxx` is not among the sampled
sources.  Per §4.1 an IdList is a compact set of small integer setting ids
with `insert` and `contains`; the constructors of cache_item call `reset`,
which clears the list. -/
structure id_list where
  ids : List Nat
deriving DecidableEq, Repr

/-- Modelled from the spec: reset clears the id list. -/
def id_list.reset (_l : id_list) : id_list :=
  ⟨[]⟩

/-- Modelled from the spec: membership test of an IdList. -/
def id_list.contains (l : id_list) (i : Nat) : Bool :=
  l.ids.contains i

/-- Modelled from the spec: `struct rspamd_symcache_item_stat` is declared in
`rspamd_symcache.h`, which is not among the sampled sources.  §3 lists the
shared counters `{hits, misses, total_time, frequency, peaks}` and §4.6 adds
`skips`; the sampled code accesses the field `hits` by name. -/
structure rspamd_symcache_item_stat where
  hits : Nat
  misses : Nat
  skips : Nat
  total_time : Nat
  frequency : Nat
  peaks : Nat
deriving DecidableEq, Repr

/-- The stats block as produced by `rspamd_mempool_alloc0_shared_type` in the
cache_item constructors: zero-initialised. -/
def rspamd_symcache_item_stat.alloc0 : rspamd_symcache_item_stat :=
  ⟨0, 0, 0, 0, 0, 0⟩

/-- `std::variant<normal_item, virtual_item>` — the specific data of an item
holds exactly one of the two alternatives. -/
inductive item_specific where
  | normal : normal_item → item_specific
  | virtual : virtual_item → item_specific
deriving DecidableEq, Repr

/-- `cache_item` from symcache_item.hxx.  Fields carry the default member
initialisers of the C++ struct; `deps`/`rdeps` are omitted because no sampled
operation touches them and both start empty. -/
structure cache_item where
  st : rspamd_symcache_item_stat
  id : Int
  last_count : Nat
  symbol : String
  type : symcache_item_type
  flags : Int
  enabled : Bool
  priority : Int
  order : Nat
  frequency_peaks : Int
  specific : item_specific
  allowed_ids : id_list
  exec_only_ids : id_list
  forbidden_ids : id_list
deriving DecidableEq, Repr

/-- cache_item::create_with_function — the private constructor for a normal
symbol with a callback: sets id, name, priority, type, flags, the normal
specific data with an empty condition list, resets the three id lists and
allocates zeroed shared stats.  `last_count`, `enabled`, `order` and
`frequency_peaks` keep their default member initialisers. -/
def cache_item.create_with_function (id : Int) (name : String) (priority : Int)
    (func : Nat) (user_data : Nat) (type : symcache_item_type) (flags : Int) :
    cache_item :=
  { st := rspamd_symcache_item_stat.alloc0
    id := id
    last_count := 0
    symbol := name
    type := type
    flags := flags
    enabled := true
    priority := priority
    order := 0
    frequency_peaks := 0
    specific := item_specific.normal ⟨func, user_data, []⟩
    allowed_ids := id_list.reset ⟨[]⟩
    exec_only_ids := id_list.reset ⟨[]⟩
    forbidden_ids := id_list.reset ⟨[]⟩ }

/-- cache_item::create_with_virtual — the private constructor for a virtual
symbol: sets id, name, type, flags and the virtual specific data holding the
given parent id; it performs no lookup of the parent.  `priority` keeps its
default member initialiser 0 (this constructor does not take a priority). -/
def cache_item.create_with_virtual (id : Int) (name : String) (parent : Int)
    (type : symcache_item_type) (flags : Int) : cache_item :=
  { st := rspamd_symcache_item_stat.alloc0
    id := id
    last_count := 0
    symbol := name
    type := type
    flags := flags
    enabled := true
    priority := 0
    order := 0
    frequency_peaks := 0
    specific := item_specific.virtual (virtual_item.create parent)
    allowed_ids := id_list.reset ⟨[]⟩
    exec_only_ids := id_list.reset ⟨[]⟩
    forbidden_ids := id_list.reset ⟨[]⟩ }

/-- cache_item::is_virtual — `std::holds_alternative<virtual_item>(specific)`. -/
def cache_item.is_virtual (it : cache_item) : Bool :=
  match it.specific with
  | item_specific.virtual _ => true
  | item_specific.normal _ => false

/-- cache_item::is_filter — holds the normal alternative and the type is
FILTER. -/
def cache_item.is_filter (it : cache_item) : Bool :=
  (match it.specific with
   | item_specific.normal _ => true
   | item_specific.virtual _ => false) &&
  (it.type == symcache_item_type.FILTER)

/-- cache_item::get_name. -/
def cache_item.get_name (it : cache_item) : String :=
  it.symbol

/-- The condition list of the item (the conditions of the normal alternative;
a virtual item has none). -/
def cache_item.get_conditions (it : cache_item) : List item_condition :=
  match it.specific with
  | item_specific.normal n => n.conditions
  | item_specific.virtual _ => []

/-- The parent id stored in the virtual alternative, if any. -/
def cache_item.get_parent_id (it : cache_item) : Option Int :=
  match it.specific with
  | item_specific.virtual v => some v.parent_id
  | item_specific.normal _ => none

/-- cache_item::add_condition — if the item is not virtual, append the
condition to the normal data and return true; otherwise return false and
change nothing. -/
def cache_item.add_condition (it : cache_item) (L : Nat) (cbref : Int) :
    Bool × cache_item :=
  match it.specific with
  | item_specific.normal n =>
      (true, { it with specific := item_specific.normal (n.add_condition L cbref) })
  | item_specific.virtual _ => (false, it)

/-- cache_item::inc_frequency — `g_atomic_int_inc(&st->hits)`: one atomic
increment of the stats field named `hits`. -/
def cache_item.inc_frequency (it : cache_item) : cache_item :=
  { it with st := { it.st with hits := it.st.hits + 1 } }

/-- Whether some item in the registry has the given id. -/
def parent_exists (items : List cache_item) (pid : Int) : Bool :=
  items.any (fun p => p.id == pid)

/-- Modelled from the spec: the body of `cache_item::resolve_parent` is not in
the sampled sources (only its declaration).  Per §4.4 step 1 it looks the
parent id up; when found it stores a non-owning reference and returns true,
when missing it returns false; it applies to virtual items only. -/
def cache_item.resolve_parent (it : cache_item) (items : List cache_item) :
    Bool × cache_item :=
  match it.specific with
  | item_specific.virtual v =>
      match items.find? (fun p => p.id == v.parent_id) with
      | some p =>
          (true, { it with specific := item_specific.virtual { v with parent := some p.id } })
      | none => (false, it)
  | item_specific.normal _ => (false, it)

/-- Result of one condition predicate, per the spec contract in §6:
Pass, Deny or Skip. -/
inductive condition_result where
  | pass
  | deny
  | skip
deriving DecidableEq, Repr

/-- How one evaluation of an item is recorded. -/
inductive item_outcome where
  | hit
  | miss
  | skipped
deriving DecidableEq, Repr

/-- Evaluate conditions in list (registration) order: the first condition that
does not pass decides, otherwise the overall result is pass. -/
def run_conditions (eval : item_condition → condition_result) :
    List item_condition → condition_result
  | [] => condition_result.pass
  | c :: cs =>
      match eval c with
      | condition_result.pass => run_conditions eval cs
      | r => r

/-- Modelled from the spec: the body of `normal_item::call` is an empty stub
in the sampled source, so condition evaluation follows §4.2: conditions run in
registration order before the callback; the first condition returning skip
records the item as skipped (not as a miss); a condition returning false
(deny) suppresses the result but still counts as evaluated (a miss); when all
conditions pass the callback decides hit or miss. -/
def call_item (eval : item_condition → condition_result) (cb_hit : Bool)
    (it : cache_item) : item_outcome :=
  match run_conditions eval it.get_conditions with
  | condition_result.skip => item_outcome.skipped
  | condition_result.deny => item_outcome.miss
  | condition_result.pass => if cb_hit then item_outcome.hit else item_outcome.miss

/-- One recorded evaluation of an item during a run, with the time it took. -/
inductive eval_event where
  | hit (t : Nat)
  | miss (t : Nat)
  | skip (t : Nat)
deriving DecidableEq, Repr

/-- Modelled from the spec: the scheduler code that records outcomes is not in
the sampled sources.  Per §4.6 and §8 every update is a single-word increment:
one of hits, misses, skips goes up by one and the spent time is added. -/
def record_event (s : rspamd_symcache_item_stat) : eval_event →
    rspamd_symcache_item_stat
  | eval_event.hit t => { s with hits := s.hits + 1, total_time := s.total_time + t }
  | eval_event.miss t => { s with misses := s.misses + 1, total_time := s.total_time + t }
  | eval_event.skip t => { s with skips := s.skips + 1, total_time := s.total_time + t }

/-- The stats block after a run recording the given evaluations, starting from
the zero-initialised block the constructors allocate. -/
def run_stats (evs : List eval_event) : rspamd_symcache_item_stat :=
  evs.foldl record_event rspamd_symcache_item_stat.alloc0

/-- Componentwise order on the counters a run updates. -/
def stat_le (a b : rspamd_symcache_item_stat) : Prop :=
  a.hits ≤ b.hits ∧ a.misses ≤ b.misses ∧ a.skips ≤ b.skips ∧
    a.total_time ≤ b.total_time

/-- A lua value as far as the session bindings are concerned: nil, a function
(identified by the registry reference it gets), or a userdata of a class
carrying a payload. -/
inductive lua_value where
  | nil
  | func (ref : Int)
  | userdata (cls : String) (v : Nat)
deriving DecidableEq, Repr

/-- One pending asynchronous event of a session: the handle identity and the
registry reference of its lua finalizer (the `cbref` of lua_event_udata). -/
structure async_event where
  eid : Nat
  cbref : Int
deriving DecidableEq, Repr

/-- Modelled from the spec: `struct rspamd_async_session` is opaque in the
sampled source.  Per §6 a session holds the pending asynchronous events; a
null session pointer is modelled as live = false.  `next_eid` numbers the
handles the session hands out. -/
structure async_session where
  live : Bool
  events : List async_event
  next_eid : Nat
deriving DecidableEq, Repr

/-- Modelled from the spec: the body of `rspamd_session_add_event` is not in
the sampled sources.  Per §6 it registers exactly one pending event carrying
the given finalizer against the session and yields its handle. -/
def rspamd_session_add_event (s : async_session) (cbref : Int) :
    async_session × async_event :=
  let ev : async_event := ⟨s.next_eid, cbref⟩
  ({ s with events := s.events ++ [ev], next_eid := s.next_eid + 1 }, ev)

/-- Modelled from the spec: the body of `rspamd_session_remove_event` is not
in the sampled sources.  Per §6 it removes the event named by the handle from
the session, invoking the event finalizer; the second component lists the
finalizer references invoked. -/
def rspamd_session_remove_event (s : async_session) (ev : async_event) :
    async_session × List Int :=
  if s.events.any (fun e => e.eid == ev.eid) then
    ({ s with events := s.events.filter (fun e => e.eid != ev.eid) }, [ev.cbref])
  else
    (s, [])

/-- Whether the session still has an outstanding asynchronous event. -/
def session_pending (s : async_session) : Bool :=
  !s.events.isEmpty

/-- Modelled from the spec: "The scheduler treats the item as Running while
any event is outstanding" — the owning item counts as Running exactly while
the session has a pending event. -/
def owning_item_running (s : async_session) : Bool :=
  session_pending s

/-- What a lua binding leaves behind: the values it pushed onto the stack (in
push order, after accounting for pops such as luaL_ref) and the count it
returns to lua. -/
structure lua_result where
  pushed : List lua_value
  nret : Nat
deriving DecidableEq, Repr

/-- The values a binding actually returns to its lua caller: the top `nret`
values of what it pushed (meaningful when it pushed at least `nret` values). -/
def lua_return (r : lua_result) : List lua_value :=
  r.pushed.drop (r.pushed.length - r.nret)

/-- lua_session_register_async_event from lua_session.c.  With a live session
and a function first argument it takes a registry reference on the function
(lua_pushvalue then luaL_ref, which nets no stack growth), adds one event to
the session via rspamd_session_add_event, pushes a new `rspamd{event}`
userdata holding the event, then unconditionally pushes nil and returns 1.
With a dead session or a non-function argument it only pushes nil and
returns 1. -/
def lua_session_register_async_event (s : async_session) (arg1 : lua_value) :
    async_session × lua_result :=
  if s.live then
    match arg1 with
    | lua_value.func cbref =>
        let r := rspamd_session_add_event s cbref
        (r.fst,
          ⟨[lua_value.userdata "rspamd\x7bevent\x7d" r.snd.eid, lua_value.nil], 1⟩)
    | _ => (s, ⟨[lua_value.nil], 1⟩)
  else
    (s, ⟨[lua_value.nil], 1⟩)

/-- lua_session_remove_normal_event from lua_session.c.  With a live session
and a valid event handle at argument 2 it calls rspamd_session_remove_event
and returns 0 values; with a live session and no valid handle it returns 1
value having pushed nothing; with a dead session it pushes nil and returns 1.
The third component lists the finalizer references invoked by the removal. -/
def lua_session_remove_normal_event (s : async_session)
    (arg2 : Option async_event) : async_session × lua_result × List Int :=
  if s.live then
    match arg2 with
    | some ev =>
        let r := rspamd_session_remove_event s ev
        (r.fst, ⟨[], 0⟩, r.snd)
    | none => (s, ⟨[], 1⟩, [])
  else
    (s, ⟨[lua_value.nil], 1⟩, [])

/-- lua_session_check_session_pending from lua_session.c.  With a live session
the body is an empty stub: it pushes nothing and returns 1; with a dead
session it pushes nil and returns 1. -/
def lua_session_check_session_pending (s : async_session) : lua_result :=
  if s.live then ⟨[], 1⟩ else ⟨[lua_value.nil], 1⟩

/-- C1: for every cache item, add_condition succeeds — returns true and
appends the predicate to the item condition list — exactly when the item is
not virtual; on a virtual item it returns false and leaves the item
unchanged. -/
theorem C1_add_condition (it : cache_item) (L : Nat) (cbref : Int) :
    ((it.add_condition L cbref).fst = !it.is_virtual)
    ∧ (it.add_condition L cbref).snd.get_conditions
        = it.get_conditions ++ (if it.is_virtual then [] else [⟨L, cbref⟩])
    ∧ (it.is_virtual = true → (it.add_condition L cbref).snd = it) := by
  cases h : it.specific <;>
    simp [cache_item.add_condition, cache_item.is_virtual,
      cache_item.get_conditions, normal_item.add_condition, h]

/-- C1 witness: a concrete virtual item is rejected and left unchanged. -/
theorem C1_add_condition_witness :
    ((cache_item.create_with_virtual 1 "V" 0 symcache_item_type.VIRTUAL 0).add_condition 0 5).snd
      = cache_item.create_with_virtual 1 "V" 0 symcache_item_type.VIRTUAL 0 :=
  (C1_add_condition (cache_item.create_with_virtual 1 "V" 0 symcache_item_type.VIRTUAL 0) 0 5).2.2 rfl

/-- C2: the specific data is a sum of exactly the two variants;
create_with_function yields a non-virtual item and create_with_virtual a
virtual one; the sampled item operations never change which variant an item
holds; and is_virtual and is_filter are never both true. -/
theorem C2_variant_stability (it : cache_item) (items : List cache_item)
    (id : Int) (name : String) (priority : Int) (func user_data : Nat)
    (ty : symcache_item_type) (flags : Int) (parent : Int) (L : Nat) (cbref : Int) :
    (cache_item.create_with_function id name priority func user_data ty flags).is_virtual = false
    ∧ (cache_item.create_with_virtual id name parent ty flags).is_virtual = true
    ∧ ((it.add_condition L cbref).snd.is_virtual = it.is_virtual)
    ∧ (it.inc_frequency.is_virtual = it.is_virtual)
    ∧ ((it.resolve_parent items).snd.is_virtual = it.is_virtual)
    ∧ ((it.is_virtual && it.is_filter) = false) := by
  refine ⟨rfl, rfl, ?_, rfl, ?_, ?_⟩
  · cases h : it.specific <;>
      simp [cache_item.add_condition, cache_item.is_virtual, h]
  · cases h : it.specific with
    | normal n => simp [cache_item.resolve_parent, cache_item.is_virtual, h]
    | virtual v =>
        cases hf : items.find? (fun p => p.id == v.parent_id) <;>
          simp [cache_item.resolve_parent, cache_item.is_virtual, h, hf]
  · cases h : it.specific <;>
      simp [cache_item.is_virtual, cache_item.is_filter, h]

/-- C3 counterexample: the claim says inc_frequency leaves the hits counter
unchanged, but the implementation is one atomic increment of the stats field
named hits: on a freshly created item hits goes from 0 to 1. -/
theorem C3_counterexample :
    ¬ ((cache_item.create_with_function 0 "X" 0 0 0 symcache_item_type.FILTER 0).inc_frequency.st.hits
        = (cache_item.create_with_function 0 "X" 0 0 0 symcache_item_type.FILTER 0).st.hits) := by
  decide

/-- C3 amended: inc_frequency performs exactly one increment — of the stats
field hits, which backs the frequency estimate — and leaves misses, skips,
total_time, frequency, peaks and the non-stat fields unchanged. -/
theorem C3_inc_frequency (it : cache_item) :
    it.inc_frequency.st.hits = it.st.hits + 1
    ∧ it.inc_frequency.st.misses = it.st.misses
    ∧ it.inc_frequency.st.skips = it.st.skips
    ∧ it.inc_frequency.st.total_time = it.st.total_time
    ∧ it.inc_frequency.st.frequency = it.st.frequency
    ∧ it.inc_frequency.st.peaks = it.st.peaks
    ∧ it.inc_frequency.specific = it.specific
    ∧ it.inc_frequency.last_count = it.last_count :=
  ⟨rfl, rfl, rfl, rfl, rfl, rfl, rfl, rfl⟩

/-- C5 counterexample: with an empty registry the parent id 42 references no
item, yet create_with_virtual still produces an item (a virtual one recording
parent 42); its return type cannot even carry an UnknownParent error. -/
theorem C5_counterexample :
    parent_exists [] 42 = false
    ∧ (cache_item.create_with_virtual 7 "V" 42 symcache_item_type.VIRTUAL 0).is_virtual = true
    ∧ (cache_item.create_with_virtual 7 "V" 42 symcache_item_type.VIRTUAL 0).get_parent_id
        = some 42 :=
  ⟨rfl, rfl, rfl⟩

/-- C5 amended: create_with_virtual always returns a new virtual item that
records the given parent id and does not check parent existence at creation;
a missing parent is detected later, when resolve_parent fails (returns false)
for a parent id matching no item in the registry. -/
theorem C5_create_virtual_unchecked (id : Int) (name : String) (parent : Int)
    (ty : symcache_item_type) (flags : Int) (items : List cache_item)
    (hmiss : parent_exists items parent = false) :
    (cache_item.create_with_virtual id name parent ty flags).is_virtual = true
    ∧ (cache_item.create_with_virtual id name parent ty flags).get_parent_id = some parent
    ∧ ((cache_item.create_with_virtual id name parent ty flags).resolve_parent items).fst
        = false := by
  refine ⟨rfl, rfl, ?_⟩
  have hf : items.find? (fun p => p.id == parent) = none := by
    apply List.find?_eq_none.mpr
    intro p hp hpc
    have hm : items.any (fun q => q.id == parent) = true :=
      List.any_eq_true.mpr ⟨p, hp, hpc⟩
    rw [parent_exists] at hmiss
    exact Bool.noConfusion (hm.symm.trans hmiss)
  simp [cache_item.create_with_virtual, cache_item.resolve_parent,
    virtual_item.create, hf]

/-- C5 amended witness: at a concrete virtual item with parent 42 and an empty
registry, parent resolution fails. -/
theorem C5_create_virtual_unchecked_witness :
    ((cache_item.create_with_virtual 7 "W" 42 symcache_item_type.VIRTUAL 0).resolve_parent []).fst
      = false :=
  (C5_create_virtual_unchecked 7 "W" 42 symcache_item_type.VIRTUAL 0 [] rfl).2.2

/-- C8: the sampled implementations are stubs: normal_item::call leaves the
item exactly as it was, and for a live session check_session_pending computes
nothing and pushes no pending-status value (while still returning one value). -/
theorem C8_stubs (n : normal_item) (s : async_session) (hl : s.live = true) :
    normal_item.call n = n
    ∧ (lua_session_check_session_pending s).pushed = []
    ∧ (lua_session_check_session_pending s).nret = 1 := by
  refine ⟨rfl, ?_, ?_⟩ <;> simp [lua_session_check_session_pending, hl]

/-- C8 witness: a concrete normal item and a concrete live session. -/
theorem C8_stubs_witness :
    normal_item.call ⟨0, 0, []⟩ = (⟨0, 0, []⟩ : normal_item)
    ∧ (lua_session_check_session_pending ⟨true, [], 0⟩).pushed = [] :=
  ⟨(C8_stubs ⟨0, 0, []⟩ ⟨true, [], 0⟩ rfl).1,
   (C8_stubs ⟨0, 0, []⟩ ⟨true, [], 0⟩ rfl).2.1⟩

/-- C9: register_async_event always returns exactly one value to its lua
caller and that value is nil, in every branch; even when an event-handle
userdata is created it is not the returned value, because nil is pushed
unconditionally after it. -/
theorem C9_register_returns_nil (s : async_session) (arg1 : lua_value) :
    (lua_session_register_async_event s arg1).snd.nret = 1
    ∧ lua_return (lua_session_register_async_event s arg1).snd = [lua_value.nil]
    ∧ (s.live = true → ∀ cbref, arg1 = lua_value.func cbref →
        (lua_session_register_async_event s arg1).snd.pushed
          = [lua_value.userdata "rspamd\x7bevent\x7d" s.next_eid, lua_value.nil]) := by
  cases hl : s.live <;> cases arg1 <;>
    simp [lua_session_register_async_event, rspamd_session_add_event,
      lua_return, hl]

/-- C9 witness: a concrete live session and function argument: the userdata
is on the stack below the nil, and the single returned value is nil. -/
theorem C9_register_returns_nil_witness :
    lua_return (lua_session_register_async_event ⟨true, [], 5⟩ (lua_value.func 3)).snd
      = [lua_value.nil]
    ∧ (lua_session_register_async_event ⟨true, [], 5⟩ (lua_value.func 3)).snd.pushed
        = [lua_value.userdata "rspamd\x7bevent\x7d" 5, lua_value.nil] :=
  ⟨(C9_register_returns_nil ⟨true, [], 5⟩ (lua_value.func 3)).2.1,
   (C9_register_returns_nil ⟨true, [], 5⟩ (lua_value.func 3)).2.2 rfl 3 rfl⟩

/-- C10: every freshly created item, from either constructor, has the three
setting-id lists empty, enabled true, order 0, last_count 0 and
frequency_peaks 0. -/
theorem C10_fresh_item_defaults (id id2 : Int) (name name2 : String)
    (priority : Int) (func user_data : Nat) (ty ty2 : symcache_item_type)
    (flags flags2 : Int) (parent : Int) :
    ((cache_item.create_with_function id name priority func user_data ty flags).allowed_ids.ids = []
      ∧ (cache_item.create_with_function id name priority func user_data ty flags).exec_only_ids.ids = []
      ∧ (cache_item.create_with_function id name priority func user_data ty flags).forbidden_ids.ids = []
      ∧ (cache_item.create_with_function id name priority func user_data ty flags).enabled = true
      ∧ (cache_item.create_with_function id name priority func user_data ty flags).order = 0
      ∧ (cache_item.create_with_function id name priority func user_data ty flags).last_count = 0
      ∧ (cache_item.create_with_function id name priority func user_data ty flags).frequency_peaks = 0)
    ∧ ((cache_item.create_with_virtual id2 name2 parent ty2 flags2).allowed_ids.ids = []
      ∧ (cache_item.create_with_virtual id2 name2 parent ty2 flags2).exec_only_ids.ids = []
      ∧ (cache_item.create_with_virtual id2 name2 parent ty2 flags2).forbidden_ids.ids = []
      ∧ (cache_item.create_with_virtual id2 name2 parent ty2 flags2).enabled = true
      ∧ (cache_item.create_with_virtual id2 name2 parent ty2 flags2).order = 0
      ∧ (cache_item.create_with_virtual id2 name2 parent ty2 flags2).last_count = 0
      ∧ (cache_item.create_with_virtual id2 name2 parent ty2 flags2).frequency_peaks = 0) :=
  ⟨⟨rfl, rfl, rfl, rfl, rfl, rfl, rfl⟩, ⟨rfl, rfl, rfl, rfl, rfl, rfl, rfl⟩⟩

/-- Helper: condition evaluation stops at the first skip after a prefix of
passing conditions. -/
theorem run_conditions_first_skip (eval : item_condition → condition_result)
    (pre post : List item_condition) (c : item_condition)
    (hpre : ∀ x ∈ pre, eval x = condition_result.pass)
    (hc : eval c = condition_result.skip) :
    run_conditions eval (pre ++ c :: post) = condition_result.skip := by
  induction pre with
  | nil => simp [run_conditions, hc]
  | cons a as ih =>
      have ha : eval a = condition_result.pass := hpre a (by simp)
      have hrest : ∀ x ∈ as, eval x = condition_result.pass :=
        fun x hx => hpre x (by simp [hx])
      simpa [run_conditions, ha] using ih hrest

/-- C4: conditions added via add_condition are kept in registration order, and
when the conditions of a non-virtual item are a passing prefix followed by a
condition returning skip, the call records the item as skipped — not as a
miss. -/
theorem C4_condition_order_and_skip (it : cache_item) (L1 L2 : Nat)
    (c1 c2 : Int) (eval : item_condition → condition_result) (cb_hit : Bool)
    (pre post : List item_condition) (c : item_condition)
    (hv : it.is_virtual = false)
    (hconds : it.get_conditions = pre ++ c :: post)
    (hpre : ∀ x ∈ pre, eval x = condition_result.pass)
    (hc : eval c = condition_result.skip) :
    (((it.add_condition L1 c1).snd.add_condition L2 c2).snd.get_conditions
        = it.get_conditions ++ [⟨L1, c1⟩, ⟨L2, c2⟩])
    ∧ call_item eval cb_hit it = item_outcome.skipped
    ∧ call_item eval cb_hit it ≠ item_outcome.miss := by
  have hskip := run_conditions_first_skip eval pre post c hpre hc
  refine ⟨?_, ?_, ?_⟩
  · cases h : it.specific with
    | virtual v => simp [cache_item.is_virtual, h] at hv
    | normal n =>
        simp [cache_item.add_condition, cache_item.get_conditions,
          normal_item.add_condition, h]
  · simp [call_item, hconds, hskip]
  · simp [call_item, hconds, hskip]

/-- C4 witness: a fresh filter item given one condition; an evaluation where
that condition skips records the item as skipped. -/
theorem C4_condition_order_and_skip_witness :
    call_item (fun _ => condition_result.skip) true
        ((cache_item.create_with_function 0 "X" 0 0 0 symcache_item_type.FILTER 0).add_condition 0 7).snd
      = item_outcome.skipped :=
  (C4_condition_order_and_skip
    ((cache_item.create_with_function 0 "X" 0 0 0 symcache_item_type.FILTER 0).add_condition 0 7).snd
    1 2 8 9 (fun _ => condition_result.skip) true [] [] ⟨0, 7⟩
    rfl rfl (by simp) rfl).2.1

/-- Helper: along any fold of recorded evaluations, the sum of hits, misses
and skips grows by exactly the number of evaluations. -/
theorem run_stats_sum_aux (evs : List eval_event) :
    ∀ s : rspamd_symcache_item_stat,
      (evs.foldl record_event s).hits + (evs.foldl record_event s).misses
          + (evs.foldl record_event s).skips
        = s.hits + s.misses + s.skips + evs.length := by
  induction evs with
  | nil => intro s; simp
  | cons e es ih =>
      intro s
      have h := ih (record_event s e)
      cases e <;> simp [record_event, List.foldl] at h ⊢ <;> omega

/-- C6: the shared stats block starts zero-initialised at creation by either
constructor; recording one more evaluation only increments counters (the
stats of a run extended by one event dominate the stats of the run); and the
sum of hits, misses and skips equals the number of evaluations performed. -/
theorem C6_stats_monotonic (id : Int) (name : String) (priority : Int)
    (func user_data : Nat) (ty : symcache_item_type) (flags : Int)
    (parent : Int) (evs : List eval_event) (e : eval_event) :
    (cache_item.create_with_function id name priority func user_data ty flags).st
        = rspamd_symcache_item_stat.alloc0
    ∧ (cache_item.create_with_virtual id name parent ty flags).st
        = rspamd_symcache_item_stat.alloc0
    ∧ rspamd_symcache_item_stat.alloc0 = ⟨0, 0, 0, 0, 0, 0⟩
    ∧ stat_le (run_stats evs) (run_stats (evs ++ [e]))
    ∧ (run_stats evs).hits + (run_stats evs).misses + (run_stats evs).skips
        = evs.length := by
  refine ⟨rfl, rfl, rfl, ?_, ?_⟩
  · have h : run_stats (evs ++ [e]) = record_event (run_stats evs) e := by
      simp [run_stats, List.foldl_append]
    rw [h]
    cases e <;> simp [record_event, stat_le]
  · simpa [run_stats, rspamd_symcache_item_stat.alloc0] using
      run_stats_sum_aux evs rspamd_symcache_item_stat.alloc0

/-- C7: on a live session, registering an async event with a function
finalizer adds exactly one pending event carrying that finalizer; while it is
outstanding the owning item counts as Running; and removing that event by its
handle removes exactly it (the session events return to what they were) and
invokes exactly its finalizer. -/
theorem C7_register_then_remove_event (s : async_session) (cbref : Int)
    (hl : s.live = true)
    (hfresh : ∀ e ∈ s.events, e.eid < s.next_eid) :
    (lua_session_register_async_event s (lua_value.func cbref)).fst.events
        = s.events ++ [⟨s.next_eid, cbref⟩]
    ∧ owning_item_running (lua_session_register_async_event s (lua_value.func cbref)).fst
        = true
    ∧ (lua_session_remove_normal_event
          (lua_session_register_async_event s (lua_value.func cbref)).fst
          (some ⟨s.next_eid, cbref⟩)).fst.events = s.events
    ∧ (lua_session_remove_normal_event
          (lua_session_register_async_event s (lua_value.func cbref)).fst
          (some ⟨s.next_eid, cbref⟩)).snd.snd = [cbref] := by
  have hfil : s.events.filter (fun e => e.eid != s.next_eid) = s.events := by
    apply List.filter_eq_self.mpr
    intro e he
    have hlt := hfresh e he
    simp only [bne_iff_ne, ne_eq]
    omega
  have hany : (s.events ++ [(⟨s.next_eid, cbref⟩ : async_event)]).any
      (fun e => e.eid == s.next_eid) = true := by
    simp
  refine ⟨?_, ?_, ?_, ?_⟩ <;>
    simp [lua_session_register_async_event, rspamd_session_add_event, hl,
      lua_session_remove_normal_event, rspamd_session_remove_event,
      owning_item_running, session_pending, hany, hfil]

/-- C7 witness: an empty live session; registering then removing the event
invokes exactly the finalizer that was registered. -/
theorem C7_register_then_remove_event_witness :
    (lua_session_remove_normal_event
        (lua_session_register_async_event ⟨true, [], 0⟩ (lua_value.func 9)).fst
        (some ⟨0, 9⟩)).snd.snd = [9] :=
  (C7_register_then_remove_event ⟨true, [], 0⟩ 9 rfl (by simp)).2.2.2

end rspamd
